import Mathlib

/-!
# Verification of the devfolio client-side list pipeline

A shallow embedding of the reusable state-management core of the
`devfolio` dashboard:

* the snippet data model (`src/types/index.ts`, `Snippet`),
* the filter composition of the snippets page
  (`src/app/(dashboard)/snippets/page.tsx`, `filteredSnippets`),
* the pagination engine (`src/hooks/index.ts`, `usePagination`),
* the mutation orchestration of the snippets page
  (`fetchSnippets`, `handleDelete`, `SnippetForm.handleSubmit`),
* a discrete-event model of the debounce primitive
  (`src/hooks/index.ts`, `useDebounce`).

TypeScript numbers that only ever hold non-negative integers are
modelled as `Nat`, strings as `String`, optional fields as `Option`,
arrays as `List`.  JavaScript `a.includes(b)` on strings is substring
containment, modelled as `List.IsInfix` on the character lists.
-/

namespace Devfolio

/-- `Snippet` from `src/types/index.ts`.  The `description` field is
optional (`description?: string`); all other fields are required. -/
structure Snippet where
  id : Nat
  userId : Nat
  title : String
  code : String
  language : String
  description : Option String
  tags : List String
  isPublic : Bool
  viewCount : Nat
  createdAt : String
  updatedAt : String
  deriving DecidableEq, Repr

/-- JavaScript `s.toLowerCase()`: lower-case every character (modelled
with `Char.toLower`, the ASCII case mapping). -/
def jsToLowerCase (s : String) : String :=
  ⟨s.data.map Char.toLower⟩

/-- JavaScript `haystack.includes(needle)` on strings: `needle` occurs
as a contiguous substring of `haystack`. -/
def jsIncludes (haystack needle : String) : Bool :=
  decide (needle.data <:+: haystack.data)

/-- The search predicate of `filteredSnippets`
(`src/app/(dashboard)/snippets/page.tsx`, lines 75–80):

    snippet.title.toLowerCase().includes(q.toLowerCase()) ||
    snippet.description?.toLowerCase().includes(q.toLowerCase()) ||
    snippet.code.toLowerCase().includes(q.toLowerCase())

A missing `description` short-circuits to `undefined`, which is falsy,
hence the `Option.match` arm returning `false`. -/
def matchesSearch (q : String) (s : Snippet) : Bool :=
  jsIncludes (jsToLowerCase s.title) (jsToLowerCase q) ||
  (match s.description with
   | some d => jsIncludes (jsToLowerCase d) (jsToLowerCase q)
   | none => false) ||
  jsIncludes (jsToLowerCase s.code) (jsToLowerCase q)

/-- The `useMemo` filter chain `filteredSnippets` of the snippets page
(lines 70–96).  Each stage is applied only when its criterion is
active: a truthy (non-empty) search string, a language other than
`"all"`, a non-empty selected-tag list.  Tag semantics:
`selectedTags.some (tag => snippet.tags.includes tag)`. -/
def filteredSnippets (snippets : List Snippet) (debouncedSearch : String)
    (selectedLanguage : String) (selectedTags : List String) : List Snippet :=
  let f1 := if debouncedSearch = "" then snippets
    else snippets.filter (fun s => matchesSearch debouncedSearch s)
  let f2 := if selectedLanguage = "all" then f1
    else f1.filter (fun s => s.language == selectedLanguage)
  if 0 < selectedTags.length then
    f2.filter (fun s => selectedTags.any (fun t => s.tags.contains t))
  else f2

/-! ## Pagination engine (`usePagination`, `src/hooks/index.ts` 221–254) -/

/-- `totalPages = Math.ceil(items.length / itemsPerPage)`.  For a
positive divisor, `(n + p - 1) / p` in natural-number division is
exactly `⌈n / p⌉`. -/
def totalPages (len itemsPerPage : Nat) : Nat :=
  (len + itemsPerPage - 1) / itemsPerPage

/-- `paginatedItems = items.slice(start, start + itemsPerPage)` with
`start = (currentPage - 1) * itemsPerPage`. -/
def paginatedItems {T : Type} (items : List T) (itemsPerPage currentPage : Nat) :
    List T :=
  (items.drop ((currentPage - 1) * itemsPerPage)).take itemsPerPage

/-- `goToPage(page) = setCurrentPage(Math.max(1, Math.min(page, totalPages)))`. -/
def goToPage (tp page : Nat) : Nat :=
  max 1 (min page tp)

/-- The record returned by one render of `usePagination`.  `currentPage`
is the `useState` cell: it is an input of each recomputation and the
hook body never writes it except through `goToPage`. -/
structure PaginationView (T : Type) where
  currentPage : Nat
  totalPages : Nat
  paginatedItems : List T
  hasNextPage : Bool
  hasPrevPage : Bool
  deriving DecidableEq, Repr

/-- One recomputation (render) of `usePagination` for a given list,
page size and current `useState` value of `currentPage`.  There is no
effect in the hook that rewrites `currentPage` when `items` changes. -/
def usePagination {T : Type} (items : List T) (itemsPerPage : Nat)
    (currentPage : Nat) : PaginationView T :=
  { currentPage := currentPage
    totalPages := totalPages items.length itemsPerPage
    paginatedItems := paginatedItems items itemsPerPage currentPage
    hasNextPage := decide (currentPage < totalPages items.length itemsPerPage)
    hasPrevPage := decide (1 < currentPage) }

/-- A navigation request against the pagination engine: `goToPage(n)`,
`nextPage` (`goToPage(currentPage + 1)`) or `prevPage`
(`goToPage(currentPage - 1)`). -/
inductive PageNav where
  | goTo (n : Nat)
  | next
  | prev
  deriving DecidableEq, Repr

/-- Effect of one navigation call on the `currentPage` state, for a
fixed total page count `tp`. -/
def navStep (tp cur : Nat) : PageNav → Nat
  | .goTo n => goToPage tp n
  | .next => goToPage tp (cur + 1)
  | .prev => goToPage tp (cur - 1)

/-- Run a sequence of navigation calls from a `currentPage` state. -/
def runNav (tp cur : Nat) : List PageNav → Nat
  | [] => cur
  | e :: es => runNav tp (navStep tp cur e) es

/-! ## Mutation orchestration of the snippets page

The page's collaborator calls (`snippetsApi.*`) are asynchronous and may
reject; each call site models the two outcomes of its `try/catch` with
an `ApiResult` argument.  The page state the handlers touch is the
`snippets` `useState` cell plus the stream of toast notifications. -/

/-- Outcome of a collaborator (REST) call: resolved with a value, or
rejected (any 4xx/5xx/network failure, caught at the call site). -/
inductive ApiResult (α : Type) where
  | ok (val : α)
  | err
  deriving DecidableEq, Repr

/-- A `sonner` toast notification emitted by the page. -/
inductive Toast where
  | success (msg : String)
  | error (msg : String)
  deriving DecidableEq, Repr

/-- The state of `SnippetsPage` the mutation handlers read and write. -/
structure PageState where
  snippets : List Snippet
  toasts : List Toast
  deriving DecidableEq, Repr

/-- `fetchSnippets` (page lines 55–65): on success replace the list
wholesale with the fetched data; on failure toast an error and leave
the list as it was. -/
def fetchSnippets (result : ApiResult (List Snippet)) (st : PageState) :
    PageState :=
  match result with
  | .ok data => { st with snippets := data }
  | .err => { st with toasts := st.toasts ++ [Toast.error "Failed to load snippets"] }

/-- `handleDelete` (page lines 115–125).  `confirmed` is the result of
the `confirm(...)` prompt; an unconfirmed delete returns early.  On
success the list is patched locally: `prev.filter (s => s.id !== id)`;
on rejection the state is untouched except for the error toast. -/
def handleDelete (confirmed : Bool) (deleteResult : ApiResult Unit)
    (st : PageState) (id : Nat) : PageState :=
  if !confirmed then st
  else
    match deleteResult with
    | .ok _ =>
        { snippets := st.snippets.filter (fun s => s.id != id)
          toasts := st.toasts ++ [Toast.success "Snippet deleted"] }
    | .err => { st with toasts := st.toasts ++ [Toast.error "Failed to delete snippet"] }

/-- `SnippetForm.handleSubmit` (page lines 497–520) combined with the
`onSuccess` callbacks wired at both call sites (create: lines 168–173,
update: lines 456–462), each of which runs `fetchSnippets`.
`existing` is the optional `snippet` prop distinguishing update from
create; `fetchResult` is the outcome of the re-fetch triggered by
`onSuccess`.  On rejection of the mutation only an error toast is
emitted and `onSuccess` never runs. -/
def handleSubmit (existing : Option Snippet) (apiResult : ApiResult Snippet)
    (fetchResult : ApiResult (List Snippet)) (st : PageState) : PageState :=
  match apiResult with
  | .ok _ =>
      let msg := match existing with
        | some _ => "Snippet updated"
        | none => "Snippet created"
      fetchSnippets fetchResult { st with toasts := st.toasts ++ [Toast.success msg] }
  | .err => { st with toasts := st.toasts ++ [Toast.error "Failed to save snippet"] }

/-- Modelled from the spec: the spec's orchestration contract for a
delete mutation — "call the external API, then on success refresh the
source list by re-fetching in full (no optimistic/local patching)".
The repository's `handleDelete` is compared against this variant. -/
def handleDeleteSpec (confirmed : Bool) (deleteResult : ApiResult Unit)
    (fetchResult : ApiResult (List Snippet)) (st : PageState) (id : Nat) :
    PageState :=
  if !confirmed then st
  else
    match deleteResult with
    | .ok _ =>
        let _ := id
        fetchSnippets fetchResult
          { st with toasts := st.toasts ++ [Toast.success "Snippet deleted"] }
    | .err => { st with toasts := st.toasts ++ [Toast.error "Failed to delete snippet"] }

/-! ## Debounce primitive (`useDebounce`, `src/hooks/index.ts` 44–58)

The hook is

    const [debouncedValue, setDebouncedValue] = useState(value)
    useEffect(() => {
      const handler = setTimeout(() => setDebouncedValue(value), delay)
      return () => clearTimeout(handler)
    }, [value, delay])

modelled in discrete event-loop time: at most one timeout is ever
pending, because the effect cleanup `clearTimeout`s the previous one
before a new `setTimeout` captures the new `value`; unmount runs the
cleanup with nothing to replace it. -/

/-- State of a mounted `useDebounce` cell: the current input prop, the
`debouncedValue` state, the pending timeout (captured value and ticks
remaining before it fires), and whether the owner is still mounted. -/
structure DebounceState (α : Type) where
  input : α
  debounced : α
  pending : Option (α × Nat)
  mounted : Bool
  deriving DecidableEq, Repr

/-- Mounting the hook: `useState(value)` seeds `debounced` with the
initial input, and the first effect run schedules a timeout for it. -/
def debMount {α : Type} (delay : Nat) (v : α) : DebounceState α :=
  { input := v, debounced := v, pending := some (v, delay), mounted := true }

/-- An event-loop event affecting the hook: a new input value (a
re-render with a changed `value` prop), one unit of time passing, or
the owning component unmounting. -/
inductive DebEvent (α : Type) where
  | set (a : α)
  | tick
  | unmount
  deriving DecidableEq, Repr

/-- One event step.  A `set` re-runs the effect: cleanup clears the old
timeout and a fresh `setTimeout(delay)` captures the new value (only a
mounted component re-renders).  A `tick` decrements the pending
timeout, firing `setDebouncedValue` with its captured value when its
time is up.  `unmount` runs the final cleanup, clearing the timeout. -/
def debStep {α : Type} (delay : Nat) (s : DebounceState α) :
    DebEvent α → DebounceState α
  | .set a =>
      if s.mounted then { s with input := a, pending := some (a, delay) } else s
  | .tick =>
      match s.pending with
      | none => s
      | some (a, r) =>
          if r ≤ 1 then { s with debounced := a, pending := none }
          else { s with pending := some (a, r - 1) }
  | .unmount => { s with mounted := false, pending := none }

/-- Run a sequence of events through the debounce model. -/
def debRun {α : Type} (delay : Nat) (s : DebounceState α) :
    List (DebEvent α) → DebounceState α
  | [] => s
  | e :: es => debRun delay (debStep delay s e) es

/-- The pending timeout, when present, always holds the current input:
intermediate values overwritten by a later `set` are never pending. -/
def pendingMatchesInput {α : Type} (s : DebounceState α) : Prop :=
  ∀ a r, s.pending = some (a, r) → a = s.input

/-- The case-insensitive substring relation of the spec ("case-insensitive
substring match against title OR description OR body"). -/
abbrev ciSubstr (needle haystack : String) : Prop :=
  (jsToLowerCase needle).data <:+: (jsToLowerCase haystack).data

/-! ### Concrete sample data used by witnesses and counterexamples -/

/-- A snippet tagged `["vue"]` (spec scenario for tag OR-semantics). -/
def exVue : Snippet :=
  { id := 1, userId := 0, title := "Vue util", code := "let x = 1",
    language := "javascript", description := none, tags := ["vue"],
    isPublic := false, viewCount := 0, createdAt := "", updatedAt := "" }

/-- A snippet tagged `["hooks", "testing"]` (spec scenario). -/
def exHooks : Snippet :=
  { id := 2, userId := 0, title := "Hook helper", code := "let y = 2",
    language := "typescript", description := none, tags := ["hooks", "testing"],
    isPublic := false, viewCount := 0, createdAt := "", updatedAt := "" }

/-- Spec scenario item: title `"Foobar"`, empty description, no tags. -/
def exFoobar : Snippet :=
  { id := 3, userId := 0, title := "Foobar", code := "a",
    language := "javascript", description := some "", tags := [],
    isPublic := false, viewCount := 0, createdAt := "", updatedAt := "" }

/-- Spec scenario item: title `"Bar"`, description `"has foo inside"`. -/
def exBarFoo : Snippet :=
  { id := 4, userId := 0, title := "Bar", code := "b",
    language := "javascript", description := some "has foo inside", tags := [],
    isPublic := false, viewCount := 0, createdAt := "", updatedAt := "" }

/-- An item whose optional `description` field is absent. -/
def exNoDesc : Snippet :=
  { id := 5, userId := 0, title := "Alpha foo", code := "c",
    language := "javascript", description := none, tags := [],
    isPublic := false, viewCount := 0, createdAt := "", updatedAt := "" }

/-- A concrete page state holding two snippets. -/
def exSt : PageState := { snippets := [exVue, exHooks], toasts := [] }

/-- A concrete list the external API would return on a re-fetch (it has
drifted from the local state: another session added `exNoDesc`). -/
def exServer : List Snippet := [exHooks, exNoDesc]

/-! ## Helper lemmas -/

theorem goToPage_ge_one (tp n : Nat) : 1 ≤ goToPage tp n :=
  le_max_left 1 (min n tp)

theorem goToPage_le_max (tp n : Nat) : goToPage tp n ≤ max 1 tp := by
  unfold goToPage
  omega

theorem navStep_ge_one (tp cur : Nat) (e : PageNav) : 1 ≤ navStep tp cur e := by
  cases e <;> exact goToPage_ge_one _ _

theorem navStep_le_max (tp cur : Nat) (e : PageNav) : navStep tp cur e ≤ max 1 tp := by
  cases e <;> exact goToPage_le_max _ _

theorem runNav_bounds (tp : Nat) :
    ∀ (es : List PageNav) (cur : Nat), 1 ≤ cur → cur ≤ max 1 tp →
      1 ≤ runNav tp cur es ∧ runNav tp cur es ≤ max 1 tp
  | [], _, h1, h2 => ⟨h1, h2⟩
  | e :: es, cur, _, _ =>
      runNav_bounds tp es (navStep tp cur e) (navStep_ge_one tp cur e)
        (navStep_le_max tp cur e)

theorem totalPages_le_iff {n p k : Nat} (hp : 0 < p) :
    totalPages n p ≤ k ↔ n ≤ k * p := by
  unfold totalPages
  rw [Nat.div_le_iff_le_mul_add_pred hp, Nat.mul_comm k p]
  omega

theorem totalPages_eq_nat_ceil {n p : Nat} (hp : 0 < p) :
    totalPages n p = ⌈(n : ℚ) / (p : ℚ)⌉₊ := by
  have hpq : (0 : ℚ) < (p : ℚ) := by exact_mod_cast hp
  have key : ∀ k : Nat, totalPages n p ≤ k ↔ ⌈(n : ℚ) / (p : ℚ)⌉₊ ≤ k := by
    intro k
    rw [totalPages_le_iff hp, Nat.ceil_le, div_le_iff₀ hpq]
    exact_mod_cast Iff.rfl
  exact Nat.le_antisymm ((key _).mpr le_rfl) ((key _).mp le_rfl)

theorem debRun_ticks_noop {α : Type} (delay : Nat) :
    ∀ (k : Nat) (s : DebounceState α), s.pending = none →
      debRun delay s (List.replicate k DebEvent.tick) = s
  | 0, _, _ => rfl
  | k + 1, s, h => by
      rw [List.replicate_succ]
      show debRun delay (debStep delay s DebEvent.tick) _ = s
      have hstep : debStep delay s DebEvent.tick = s := by
        unfold debStep
        rw [h]
      rw [hstep]
      exact debRun_ticks_noop delay k s h

theorem debRun_ticks_fire {α : Type} (delay : Nat) :
    ∀ (k r : Nat) (s : DebounceState α) (a : α),
      s.pending = some (a, r) → 1 ≤ r → r ≤ k →
      (debRun delay s (List.replicate k DebEvent.tick)).debounced = a ∧
      (debRun delay s (List.replicate k DebEvent.tick)).pending = none
  | 0, r, _, _, _, h1, h2 => absurd (Nat.le_trans h1 h2) (by omega)
  | k + 1, r, s, a, hp, h1, h2 => by
      rw [List.replicate_succ]
      show (debRun delay (debStep delay s DebEvent.tick) _).debounced = a ∧
        (debRun delay (debStep delay s DebEvent.tick) _).pending = none
      by_cases hr : r ≤ 1
      · have hstep : debStep delay s DebEvent.tick =
            { s with debounced := a, pending := none } := by
          unfold debStep
          rw [hp]
          simp [hr]
        rw [hstep, debRun_ticks_noop delay k _ rfl]
        exact ⟨rfl, rfl⟩
      · have hstep : debStep delay s DebEvent.tick =
            { s with pending := some (a, r - 1) } := by
          unfold debStep
          rw [hp]
          simp [hr]
        rw [hstep]
        exact debRun_ticks_fire delay k (r - 1) _ a rfl (by omega) (by omega)

theorem debRun_ticks_wait {α : Type} (delay : Nat) :
    ∀ (k r : Nat) (s : DebounceState α) (a : α),
      s.pending = some (a, r) → k < r →
      (debRun delay s (List.replicate k DebEvent.tick)).debounced = s.debounced ∧
      (debRun delay s (List.replicate k DebEvent.tick)).pending = some (a, r - k)
  | 0, r, s, a, hp, _ => by
      refine ⟨rfl, ?_⟩
      simpa using hp
  | k + 1, r, s, a, hp, hk => by
      rw [List.replicate_succ]
      show (debRun delay (debStep delay s DebEvent.tick) _).debounced = s.debounced ∧
        (debRun delay (debStep delay s DebEvent.tick) _).pending = some (a, r - (k + 1))
      have hr : ¬ r ≤ 1 := by omega
      have hstep : debStep delay s DebEvent.tick =
          { s with pending := some (a, r - 1) } := by
        unfold debStep
        rw [hp]
        simp [hr]
      rw [hstep]
      have ih := debRun_ticks_wait delay k (r - 1) { s with pending := some (a, r - 1) }
        a rfl (by omega)
      refine ⟨ih.1, ?_⟩
      rw [ih.2]
      congr 2
      omega

theorem ite_filter_sublist {α : Type} (c : Prop) [Decidable c] (l : List α)
    (p : α → Bool) : List.Sublist (if c then l else l.filter p) l := by
  split
  · exact List.Sublist.refl l
  · exact List.filter_sublist l

theorem filter_ite_sublist {α : Type} (c : Prop) [Decidable c] (l : List α)
    (p : α → Bool) : List.Sublist (if c then l.filter p else l) l := by
  split
  · exact List.filter_sublist l
  · exact List.Sublist.refl l

/-! ## Claim theorems -/

/-- Claim C3: for every list and page size `p > 0`, the engine's total
page count equals `⌈length / p⌉`; for the empty list the exposed page
window is empty while navigation always lands on page 1 (the "one page,
conceptually" reading: `totalPages` itself computes to `0`, but
`goToPage` clamps every request to page `1` and that page's window is
empty). -/
theorem totalPages_is_ceil {T : Type} (items : List T) (p : Nat) (hp : 0 < p) :
    totalPages items.length p = ⌈(items.length : ℚ) / (p : ℚ)⌉₊ ∧
    (items = [] → paginatedItems items p 1 = [] ∧
      ∀ m, goToPage (totalPages items.length p) m = 1) := by
  refine ⟨totalPages_eq_nat_ceil hp, ?_⟩
  rintro rfl
  have h0 : totalPages (List.length ([] : List T)) p = 0 := by
    unfold totalPages
    simp only [List.length_nil, Nat.zero_add]
    exact Nat.div_eq_of_lt (by omega)
  refine ⟨by simp [paginatedItems], ?_⟩
  intro m
  rw [h0]
  unfold goToPage
  omega

/-- Witness for C3 at the empty list and page size 9. -/
theorem totalPages_is_ceil_witness :
    0 < 9 ∧
    (totalPages ([] : List Nat).length 9 =
        ⌈((([] : List Nat).length : ℚ)) / ((9 : Nat) : ℚ)⌉₊ ∧
      (([] : List Nat) = [] → paginatedItems ([] : List Nat) 9 1 = [] ∧
        ∀ m, goToPage (totalPages ([] : List Nat).length 9) m = 1)) :=
  ⟨by decide, totalPages_is_ceil ([] : List Nat) 9 (by decide)⟩

/-- Claim C7: starting from page 1, any finite sequence of `goToPage`,
`nextPage`, `prevPage` calls leaves `currentPage` within
`[1, max 1 ⌈len / p⌉]`; moreover `goToPage` clamps every request into
that range and returns in-range requests unchanged. -/
theorem currentPage_always_in_range {T : Type} (L : List T) (p : Nat)
    (_hp : 0 < p) (es : List PageNav) :
    (1 ≤ runNav (totalPages L.length p) 1 es ∧
      runNav (totalPages L.length p) 1 es ≤ max 1 (totalPages L.length p)) ∧
    (∀ n, 1 ≤ goToPage (totalPages L.length p) n ∧
      goToPage (totalPages L.length p) n ≤ max 1 (totalPages L.length p) ∧
      (1 ≤ n → n ≤ totalPages L.length p → goToPage (totalPages L.length p) n = n)) := by
  refine ⟨runNav_bounds _ es 1 le_rfl (le_max_left _ _), ?_⟩
  intro n
  refine ⟨goToPage_ge_one _ _, goToPage_le_max _ _, ?_⟩
  intro h1 h2
  unfold goToPage
  omega

/-- Witness for C7: ten items, page size 9, a concrete call sequence
(including an out-of-range `goToPage 5` and `goToPage 0`). -/
theorem currentPage_always_in_range_witness :
    0 < 9 ∧
    ((1 ≤ runNav (totalPages (List.range 10).length 9) 1
          [PageNav.goTo 5, PageNav.next, PageNav.prev, PageNav.goTo 0] ∧
        runNav (totalPages (List.range 10).length 9) 1
          [PageNav.goTo 5, PageNav.next, PageNav.prev, PageNav.goTo 0] ≤
          max 1 (totalPages (List.range 10).length 9)) ∧
      (∀ n, 1 ≤ goToPage (totalPages (List.range 10).length 9) n ∧
        goToPage (totalPages (List.range 10).length 9) n ≤
          max 1 (totalPages (List.range 10).length 9) ∧
        (1 ≤ n → n ≤ totalPages (List.range 10).length 9 →
          goToPage (totalPages (List.range 10).length 9) n = n))) :=
  ⟨by decide, currentPage_always_in_range (List.range 10) 9 (by decide)
    [PageNav.goTo 5, PageNav.next, PageNav.prev, PageNav.goTo 0]⟩

/-- Claim C1 (failing input): with 10 items at page size 9 the state
`currentPage = 2` is reached legitimately (`goToPage` keeps it, since
`totalPages = 2`); after the list shrinks to 3 items the next
recomputation still reports `currentPage = 2` with `totalPages = 1` —
outside `[1, totalPages]` — and an empty window instead of the
remaining 3 items.  Nothing in `usePagination` rewrites the
`currentPage` state when `items` changes. -/
theorem usePagination_stale_page_on_shrink :
    goToPage (totalPages (List.range 10).length 9) 2 = 2 ∧
    (usePagination (List.range 3) 9 2).currentPage = 2 ∧
    (usePagination (List.range 3) 9 2).totalPages = 1 ∧
    ¬ (usePagination (List.range 3) 9 2).currentPage ≤
        (usePagination (List.range 3) 9 2).totalPages ∧
    (usePagination (List.range 3) 9 2).paginatedItems = [] := by decide

/-- Claim C6: the filter pipeline always returns an order-preserving
subsequence (`List.Sublist`) of the source list, for every criteria
combination. -/
theorem filteredSnippets_sublist (L : List Snippet) (q lang : String)
    (ts : List String) : List.Sublist (filteredSnippets L q lang ts) L := by
  unfold filteredSnippets
  exact List.Sublist.trans (filter_ite_sublist _ _ _)
    (List.Sublist.trans (ite_filter_sublist _ _ _) (ite_filter_sublist _ _ _))

/-- Claim C4: with no search text and category `"all"`, an empty
selected-tag set constrains nothing; a non-empty one keeps exactly the
items sharing at least one selected tag (OR semantics); an item with no
tags is handled without error and fails every non-empty tag filter. -/
theorem tagFilter_or_semantics (L : List Snippet) (ts : List String)
    (s : Snippet) :
    filteredSnippets L "" "all" [] = L ∧
    (ts ≠ [] → (s ∈ filteredSnippets L "" "all" ts ↔
      s ∈ L ∧ ∃ t ∈ ts, t ∈ s.tags)) ∧
    (ts ≠ [] → s.tags = [] → s ∉ filteredSnippets L "" "all" ts) := by
  refine ⟨by simp [filteredSnippets], ?_, ?_⟩
  · intro h
    have hl : 0 < ts.length := List.length_pos.mpr h
    simp [filteredSnippets, hl, List.mem_filter]
  · intro h htags
    have hl : 0 < ts.length := List.length_pos.mpr h
    simp [filteredSnippets, hl, List.mem_filter, htags]

/-- Witness for C4: the spec scenario — selected tags
`["react", "hooks"]` include the `["hooks", "testing"]` item and
exclude the `["vue"]` item; a tag-less item fails the filter. -/
theorem tagFilter_or_semantics_witness :
    (["react", "hooks"] : List String) ≠ [] ∧
    exHooks ∈ filteredSnippets [exVue, exHooks] "" "all" ["react", "hooks"] ∧
    exVue ∉ filteredSnippets [exVue, exHooks] "" "all" ["react", "hooks"] ∧
    exFoobar ∉ filteredSnippets [exFoobar] "" "all" ["react", "hooks"] :=
  ⟨by decide,
   ((tagFilter_or_semantics [exVue, exHooks] ["react", "hooks"] exHooks).2.1
      (by decide)).mpr (by decide),
   fun h => absurd (((tagFilter_or_semantics [exVue, exHooks]
      ["react", "hooks"] exVue).2.1 (by decide)).mp h) (by decide),
   (tagFilter_or_semantics [exFoobar] ["react", "hooks"] exFoobar).2.2
      (by decide) (by decide)⟩

/-- Claim C5: an empty search text passes every item; a non-empty one
keeps exactly the items whose title, description (when present) or code
body contains it as a case-insensitive substring. -/
theorem textFilter_semantics (L : List Snippet) (q : String) (s : Snippet) :
    filteredSnippets L "" "all" [] = L ∧
    (q ≠ "" → (s ∈ filteredSnippets L q "all" [] ↔
      s ∈ L ∧ (ciSubstr q s.title ∨
        (∃ d, s.description = some d ∧ ciSubstr q d) ∨
        ciSubstr q s.code))) := by
  refine ⟨by simp [filteredSnippets], ?_⟩
  intro hq
  simp [filteredSnippets, hq, List.mem_filter, matchesSearch, jsIncludes]
  intro _
  cases hdesc : s.description <;> simp [hdesc, ciSubstr]
  all_goals tauto

/-- Witness for C5: the spec scenario — search text `"foo"` matches the
item titled `"Foobar"` (via its title) and the item titled `"Bar"` with
description `"has foo inside"` (via its description). -/
theorem textFilter_semantics_witness :
    ("foo" : String) ≠ "" ∧
    exFoobar ∈ filteredSnippets [exFoobar, exBarFoo] "foo" "all" [] ∧
    exBarFoo ∈ filteredSnippets [exFoobar, exBarFoo] "foo" "all" [] :=
  ⟨by decide,
   ((textFilter_semantics [exFoobar, exBarFoo] "foo" exFoobar).2
      (by decide)).mpr ⟨by decide, Or.inl (by decide)⟩,
   ((textFilter_semantics [exFoobar, exBarFoo] "foo" exBarFoo).2
      (by decide)).mpr
     ⟨by decide, Or.inr (Or.inl ⟨"has foo inside", rfl, by decide⟩)⟩⟩

/-- Claim C10: items whose optional description is absent are filtered
without error — the missing description simply contributes no text
match, and the item can still match through its title or code body. -/
theorem missing_description_total (L : List Snippet) (q : String) (s : Snippet)
    (hd : s.description = none) (hq : q ≠ "") :
    s ∈ filteredSnippets L q "all" [] ↔
      s ∈ L ∧ (ciSubstr q s.title ∨ ciSubstr q s.code) := by
  simp [filteredSnippets, hq, List.mem_filter, matchesSearch, jsIncludes, hd]

/-- Witness for C10: `exNoDesc` has no description and still matches
search text `"foo"` through its title `"Alpha foo"`. -/
theorem missing_description_total_witness :
    exNoDesc.description = none ∧ ("foo" : String) ≠ "" ∧
    exNoDesc ∈ filteredSnippets [exNoDesc] "foo" "all" [] :=
  ⟨by decide, by decide,
   (missing_description_total [exNoDesc] "foo" exNoDesc (by decide)
      (by decide)).mpr ⟨by decide, Or.inl (by decide)⟩⟩

/-- Claim C2 (counterexample): a successful delete does not re-fetch —
`handleDelete` removes the item from the local list (`prev.filter`),
so when the server's list has drifted (`exServer` also contains a
snippet created elsewhere) the displayed list differs from what the
spec's re-fetch orchestration (`handleDeleteSpec`) would show. -/
theorem delete_is_local_patch_counterexample :
    (handleDelete true (ApiResult.ok ()) exSt 1).snippets = [exHooks] ∧
    (handleDeleteSpec true (ApiResult.ok ()) (ApiResult.ok exServer) exSt 1).snippets
      = exServer ∧
    (handleDelete true (ApiResult.ok ()) exSt 1).snippets ≠
      (handleDeleteSpec true (ApiResult.ok ()) (ApiResult.ok exServer) exSt 1).snippets := by
  decide

/-- Claim C2 (amended): successful create and update mutations replace
the displayed list with the freshly re-fetched one, while a successful
delete instead patches the list locally, keeping exactly the previous
items whose id differs from the deleted one. -/
theorem mutation_refresh_behavior (st : PageState) (ex : Option Snippet)
    (snip : Snippet) (fetched : List Snippet) (i : Nat) (s : Snippet) :
    (handleSubmit ex (ApiResult.ok snip) (ApiResult.ok fetched) st).snippets
      = fetched ∧
    (s ∈ (handleDelete true (ApiResult.ok ()) st i).snippets ↔
      s ∈ st.snippets ∧ s.id ≠ i) := by
  refine ⟨rfl, ?_⟩
  simp [handleDelete, List.mem_filter]

/-- Claim C8: a delete rejected by the collaborator leaves the
displayed list untouched and only appends a failure toast; the caught
rejection never escapes the handler. -/
theorem delete_failure_preserves_state (st : PageState) (i : Nat) :
    (handleDelete true ApiResult.err st i).snippets = st.snippets ∧
    (handleDelete true ApiResult.err st i).toasts =
      st.toasts ++ [Toast.error "Failed to delete snippet"] :=
  ⟨rfl, rfl⟩

/-- Claim C9: the debounce primitive is trailing-edge.  After a new
input, the debounced value equals that input once at least `delay`
ticks pass with no further change; fewer than `delay` ticks emit
nothing (each change restarts the window); the single pending timeout
always carries the current input, so any emission equals the input at
that moment and skipped intermediate values are never emitted; after
unmount no further ticks change the debounced value. -/
theorem useDebounce_trailing_edge {α : Type} (delay : Nat)
    (s : DebounceState α) (v : α) (k j : Nat) (hm : s.mounted = true)
    (hd : 1 ≤ delay) (hk : delay ≤ k) (hj : j < delay) :
    (debRun delay (debStep delay s (DebEvent.set v))
        (List.replicate k DebEvent.tick)).debounced = v ∧
    (debRun delay (debStep delay s (DebEvent.set v))
        (List.replicate j DebEvent.tick)).debounced = s.debounced ∧
    (∀ w : α, pendingMatchesInput (debMount delay w)) ∧
    (pendingMatchesInput s → ∀ e, pendingMatchesInput (debStep delay s e) ∧
      ((debStep delay s e).debounced = s.debounced ∨
        (debStep delay s e).debounced = s.input)) ∧
    (∀ m, (debRun delay (debStep delay s DebEvent.unmount)
        (List.replicate m DebEvent.tick)).debounced = s.debounced) := by
  have hset : debStep delay s (DebEvent.set v) =
      { s with input := v, pending := some (v, delay) } := by
    unfold debStep
    simp [hm]
  refine ⟨?_, ?_, ?_, ?_, ?_⟩
  · rw [hset]
    exact (debRun_ticks_fire delay k delay _ v rfl hd hk).1
  · rw [hset]
    exact (debRun_ticks_wait delay j delay _ v rfl hj).1
  · intro w a r h
    simp [debMount] at h ⊢
    exact h.1.symm
  · intro hinv e
    cases e with
    | set a =>
        constructor
        · intro b r h
          simp [debStep, hm] at h ⊢
          exact h.1.symm
        · left
          simp [debStep, hm]
    | tick =>
        cases hp : s.pending with
        | none =>
            have hstep : debStep delay s DebEvent.tick = s := by
              unfold debStep
              rw [hp]
            rw [hstep]
            exact ⟨hinv, Or.inl rfl⟩
        | some p =>
            obtain ⟨a, r⟩ := p
            by_cases hr : r ≤ 1
            · have hstep : debStep delay s DebEvent.tick =
                  { s with debounced := a, pending := none } := by
                unfold debStep
                rw [hp]
                simp [hr]
              rw [hstep]
              exact ⟨fun b r' h => by simp at h, Or.inr (hinv a r hp)⟩
            · have hstep : debStep delay s DebEvent.tick =
                  { s with pending := some (a, r - 1) } := by
                unfold debStep
                rw [hp]
                simp [hr]
              rw [hstep]
              refine ⟨fun b r' h => ?_, Or.inl rfl⟩
              simp at h
              exact h.1 ▸ hinv a r hp
    | unmount =>
        exact ⟨fun b r' h => by simp [debStep] at h, Or.inl rfl⟩
  · intro m
    have hstep : debStep delay s DebEvent.unmount =
        { s with mounted := false, pending := none } := rfl
    rw [hstep, debRun_ticks_noop delay m _ rfl]

/-- Witness for C9: a mounted debounce cell with delay 3 and initial
value 0; input changes to 5, and 3 ticks (but not 2) make the
debounced value 5. -/
theorem useDebounce_trailing_edge_witness :
    (debMount 3 (0 : Nat)).mounted = true ∧ 1 ≤ 3 ∧ 3 ≤ 3 ∧ 2 < 3 ∧
    ((debRun 3 (debStep 3 (debMount 3 (0 : Nat)) (DebEvent.set 5))
        (List.replicate 3 DebEvent.tick)).debounced = 5 ∧
      (debRun 3 (debStep 3 (debMount 3 (0 : Nat)) (DebEvent.set 5))
        (List.replicate 2 DebEvent.tick)).debounced = (debMount 3 (0 : Nat)).debounced ∧
      (∀ w : Nat, pendingMatchesInput (debMount 3 w)) ∧
      (pendingMatchesInput (debMount 3 (0 : Nat)) →
        ∀ e, pendingMatchesInput (debStep 3 (debMount 3 (0 : Nat)) e) ∧
          ((debStep 3 (debMount 3 (0 : Nat)) e).debounced =
              (debMount 3 (0 : Nat)).debounced ∨
            (debStep 3 (debMount 3 (0 : Nat)) e).debounced =
              (debMount 3 (0 : Nat)).input)) ∧
      (∀ m, (debRun 3 (debStep 3 (debMount 3 (0 : Nat)) DebEvent.unmount)
          (List.replicate m DebEvent.tick)).debounced =
        (debMount 3 (0 : Nat)).debounced)) :=
  ⟨rfl, by decide, by decide, by decide,
   useDebounce_trailing_edge 3 (debMount 3 (0 : Nat)) 5 3 2 rfl (by decide)
     (by decide) (by decide)⟩

end Devfolio
